import Mathlib

/-!
Shallow embedding of `frontend/src/services/api.ts`: a client-side HTTP
access layer with three sub-clients (documents, patients, chat).

Each operation of the source is split into
  * a request builder (`...Request`) producing the `Request` value the
    TypeScript code hands to its transport (`axios` instance or `fetch`), and
  * a response handler (`...Handle`) modelling what the function does with
    the HTTP response: throwing `Error(msg)` becomes `Except.error msg`.

JavaScript semantics that the source relies on are modelled explicitly:
`x || y` falsiness for strings (`jsOrNull`, `jsFalsy`), property access on a
possibly-missing key (`Json.getField` returning `Option`, `none` standing for
`undefined`), and `JSON.stringify` dropping `undefined`-valued fields.
Query parameters built with `URLSearchParams` are kept as the appended
(name, value) pairs in `Request.query`; the transport serializer
percent-encodes them when the URL is put on the wire.
-/

/-- JSON values, as produced by `JSON.stringify` / consumed by `response.json()`. -/
inductive Json where
  | null
  | bool (b : Bool)
  | num (n : Int)
  | str (s : String)
  | arr (elems : List Json)
  | obj (fields : List (String × Json))

/-- Property access `j.k` on a JSON object: `none` models JS `undefined`
(key absent or the value is not an object). -/
def Json.getField : Json → String → Option Json
  | Json.obj fs, k => fs.lookup k
  | _, _ => none

/-- JS falsiness of a JSON value: `null`, `false`, `0` and `""` are falsy. -/
def jsFalsy : Json → Bool
  | Json.null => true
  | Json.bool b => !b
  | Json.num n => n == 0
  | Json.str s => s == ""
  | _ => false

/-- The DOM `File` handed to the upload functions: a name and opaque content. -/
structure JSFile where
  name : String
  content : String

/-- One entry of a `FormData` multipart body: a string field or a file field. -/
inductive FormEntry where
  | field (name value : String)
  | file (name : String) (f : JSFile)

/-- A request body: absent, a JSON document, or a multipart form. -/
inductive Body where
  | empty
  | json (j : Json)
  | form (entries : List FormEntry)

/-- The HTTP request a source function hands to its transport. `query` holds
the `URLSearchParams` entries for the one GET that builds a query string. -/
structure Request where
  method : String
  url : String
  query : List (String × String)
  headers : List (String × String)
  body : Body

/-- The JSON field `k` of a request's JSON body (for inspecting sent payloads). -/
def Request.jsonField (r : Request) (k : String) : Option Json :=
  match r.body with
  | Body.json j => j.getField k
  | _ => none

/-- A fetch/axios HTTP response: status code and parsed JSON body. -/
structure Response where
  status : Nat
  body : Json

/-- fetch's `response.ok`: true exactly for 2xx status codes. -/
def Response.ok (r : Response) : Bool :=
  decide (200 ≤ r.status) && decide (r.status < 300)

/-- Line 4: `process.env.REACT_APP_API_URL || 'http://localhost:8000'`.
The environment variable is `none` when unset; an unset or empty value is
falsy, so the local development default is used. -/
def apiBaseUrl (env : Option String) : String :=
  match env with
  | some s => if s = "" then "http://localhost:8000" else s
  | none => "http://localhost:8000"

/-- Default headers of the shared axios instance (lines 6-11). -/
def axiosDefaultHeaders : List (String × String) :=
  [("Content-Type", "application/json")]

/-- Axios header merge: per-request config headers override instance defaults. -/
def mergeHeaders (defaults specific : List (String × String)) :
    List (String × String) :=
  specific ++ defaults.filter (fun d => !(specific.any (fun s => s.1 == d.1)))

/-- JS `x || null` for an optional string: `undefined` and `""` are falsy and
become `null`; any other string is kept. -/
def jsOrNull : Option String → Json
  | none => Json.null
  | some s => if s = "" then Json.null else Json.str s

/-- `documentsApi.uploadDocument` (lines 15-25): multipart form with the single
field `file`, posted via the axios instance with an explicit
`multipart/form-data` content-type in the request config. -/
def uploadDocumentRequest (env : Option String) (f : JSFile) : Request :=
  { method := "POST"
    url := apiBaseUrl env ++ "/api/documents/upload"
    query := []
    headers := mergeHeaders axiosDefaultHeaders
      [("Content-Type", "multipart/form-data")]
    body := Body.form [FormEntry.file "file" f] }

/-- `uploadDocument` returns `response.data`, the parsed body (line 24).
Axios itself rejects non-2xx responses before this code runs. -/
def uploadDocumentHandle (resp : Response) : Json :=
  resp.body

/-- `documentsApi.uploadDocuments` (lines 27-36): every file appended under
the repeated field name `files`. -/
def uploadDocumentsRequest (env : Option String) (fs : List JSFile) : Request :=
  { method := "POST"
    url := apiBaseUrl env ++ "/api/documents/upload-multiple"
    query := []
    headers := mergeHeaders axiosDefaultHeaders
      [("Content-Type", "multipart/form-data")]
    body := Body.form (fs.map (FormEntry.file "files")) }

/-- `documentsApi.getSupportedTypes` (lines 38-41). -/
def getSupportedTypesRequest (env : Option String) : Request :=
  { method := "GET"
    url := apiBaseUrl env ++ "/api/documents/supported-types"
    query := []
    headers := mergeHeaders axiosDefaultHeaders []
    body := Body.empty }

/-- The `PatientCreate` payload: name, date of birth, optional diagnosis and
prescription (`none` models an `undefined` field). -/
structure PatientCreate where
  name : String
  date_of_birth : String
  diagnosis : Option String
  prescription : Option String

/-- `patientsApi.createPatient` request (lines 48-61): a `fetch` POST to the
page-relative path `/api/patients/` with an explicit JSON content-type and a
stringified body in which diagnosis/prescription go through `|| null` and
`confidence_score` / `raw_text` are literal `null`. -/
def createPatientRequest (d : PatientCreate) : Request :=
  { method := "POST"
    url := "/api/patients/"
    query := []
    headers := [("Content-Type", "application/json")]
    body := Body.json (Json.obj
      [("name", Json.str d.name),
       ("date_of_birth", Json.str d.date_of_birth),
       ("diagnosis", jsOrNull d.diagnosis),
       ("prescription", jsOrNull d.prescription),
       ("confidence_score", Json.null),
       ("raw_text", Json.null)]) }

/-- `createPatient` response handling (lines 63-68): non-ok throws the fixed
message, otherwise the `patient` field of the envelope is returned
(`none` models `undefined` when the field is absent). -/
def createPatientHandle (resp : Response) : Except String (Option Json) :=
  if !resp.ok then Except.error "Failed to create patient"
  else Except.ok (resp.body.getField "patient")

/-- `patientsApi.getPatients` request (line 72): a bare `fetch` GET. -/
def getPatientsRequest : Request :=
  { method := "GET"
    url := "/api/patients/"
    query := []
    headers := []
    body := Body.empty }

/-- `getPatients` response handling (lines 74-80): non-ok throws the fixed
message, otherwise `result.patients || []` is returned. -/
def getPatientsHandle (resp : Response) : Except String Json :=
  if !resp.ok then Except.error "Failed to fetch patients"
  else Except.ok
    (match resp.body.getField "patients" with
     | some v => if jsFalsy v then Json.arr [] else v
     | none => Json.arr [])

/-- `patientsApi.getPatient` request (line 84). -/
def getPatientRequest (id : String) : Request :=
  { method := "GET"
    url := "/api/patients/" ++ id
    query := []
    headers := []
    body := Body.empty }

/-- `getPatient` response handling (lines 86-91). -/
def getPatientHandle (resp : Response) : Except String (Option Json) :=
  if !resp.ok then Except.error "Failed to fetch patient"
  else Except.ok (resp.body.getField "patient")

/-- The `PatientUpdate` payload: partial field replacement, each field
possibly absent (`undefined`). -/
structure PatientUpdate where
  name : Option String
  date_of_birth : Option String
  diagnosis : Option String
  prescription : Option String

/-- `JSON.stringify` semantics for one field: an `undefined` value makes the
key disappear from the serialized object. -/
def stringifyField (k : String) : Option String → List (String × Json)
  | none => []
  | some s => [(k, Json.str s)]

/-- `patientsApi.updatePatient` request (lines 95-106): PUT with the four
fields passed through as given. -/
def updatePatientRequest (id : String) (d : PatientUpdate) : Request :=
  { method := "PUT"
    url := "/api/patients/" ++ id
    query := []
    headers := [("Content-Type", "application/json")]
    body := Body.json (Json.obj
      (stringifyField "name" d.name
        ++ stringifyField "date_of_birth" d.date_of_birth
        ++ stringifyField "diagnosis" d.diagnosis
        ++ stringifyField "prescription" d.prescription)) }

/-- `updatePatient` response handling (lines 108-113). -/
def updatePatientHandle (resp : Response) : Except String (Option Json) :=
  if !resp.ok then Except.error "Failed to update patient"
  else Except.ok (resp.body.getField "patient")

/-- `patientsApi.deletePatient` request (lines 117-119). -/
def deletePatientRequest (id : String) : Request :=
  { method := "DELETE"
    url := "/api/patients/" ++ id
    query := []
    headers := []
    body := Body.empty }

/-- `deletePatient` response handling (lines 121-123): nothing is returned
on success. -/
def deletePatientHandle (resp : Response) : Except String Unit :=
  if !resp.ok then Except.error "Failed to delete patient"
  else Except.ok ()

/-- `chatApi.sendMessage` (lines 129-132): JSON POST via the axios instance.
The `ChatMessage` payload is opaque to this layer and modelled as `Json`. -/
def sendMessageRequest (env : Option String) (message : Json) : Request :=
  { method := "POST"
    url := apiBaseUrl env ++ "/api/chat/"
    query := []
    headers := mergeHeaders axiosDefaultHeaders []
    body := Body.json message }

/-- `chatApi.refreshKnowledgeBase` (lines 134-136): bodyless POST via axios. -/
def refreshKnowledgeBaseRequest (env : Option String) : Request :=
  { method := "POST"
    url := apiBaseUrl env ++ "/api/chat/refresh-knowledge-base"
    query := []
    headers := mergeHeaders axiosDefaultHeaders []
    body := Body.empty }

/-- The `FormData` built by `sendMessageWithPatientContext` (lines 144-154):
session id, query, the two fixed flags, then the files — appended only when
the optional list is present and non-empty. -/
def sendMessageWithPatientContextForm (sessionId query : String)
    (files : Option (List JSFile)) : List FormEntry :=
  [FormEntry.field "session_id" sessionId,
   FormEntry.field "query" query,
   FormEntry.field "include_all_patients" "true",
   FormEntry.field "max_patients" "10"]
  ++ (match files with
      | some fs =>
        if fs.length > 0 then fs.map (FormEntry.file "files") else []
      | none => [])

/-- `chatApi.sendMessageWithPatientContext` request (lines 156-159): a `fetch`
POST of the form, with no headers set (the transport supplies the
boundary-aware multipart content-type). -/
def sendMessageWithPatientContextRequest (sessionId query : String)
    (files : Option (List JSFile)) : Request :=
  { method := "POST"
    url := "/api/patients/context/chat-query"
    query := []
    headers := []
    body := Body.form (sendMessageWithPatientContextForm sessionId query files) }

/-- `sendMessageWithPatientContext` response handling (lines 161-165). -/
def sendMessageWithPatientContextHandle (resp : Response) : Except String Json :=
  if !resp.ok then Except.error "Failed to get chat response"
  else Except.ok resp.body

/-- The `URLSearchParams` entries built by `getPatientContext`
(lines 169-174): `patient_ids` (comma-joined) only when the optional list is
present and non-empty, then `limit` and the fixed `include_recent`. -/
def getPatientContextParams (patientIds : Option (List String)) (limit : Nat) :
    List (String × String) :=
  (match patientIds with
   | some ids =>
     if ids.length > 0 then [("patient_ids", String.intercalate "," ids)]
     else []
   | none => [])
  ++ [("limit", toString limit), ("include_recent", "true")]

/-- `chatApi.getPatientContext` request (line 176): GET with the query string
serialized from the params. -/
def getPatientContextRequest (patientIds : Option (List String))
    (limit : Nat) : Request :=
  { method := "GET"
    url := "/api/patients/context/chat"
    query := getPatientContextParams patientIds limit
    headers := []
    body := Body.empty }

/-- `getPatientContext` response handling (lines 177-181). -/
def getPatientContextHandle (resp : Response) : Except String Json :=
  if !resp.ok then Except.error "Failed to get patient context"
  else Except.ok resp.body

/-- `chatApi.startChatSession` request (lines 185-187): bodyless `fetch` POST. -/
def startChatSessionRequest : Request :=
  { method := "POST"
    url := "/api/chat/start-session"
    query := []
    headers := []
    body := Body.empty }

/-- `startChatSession` response handling (lines 189-193). -/
def startChatSessionHandle (resp : Response) : Except String Json :=
  if !resp.ok then Except.error "Failed to start chat session"
  else Except.ok resp.body

/-- C1: for every successful `createPatient` call the returned value is the
`patient` field of the response envelope, and the JSON request body always
has `confidence_score` and `raw_text` literally null, for every input. -/
theorem createPatient_envelope_nulls (d : PatientCreate) (resp : Response)
    (h : resp.ok = true) :
    createPatientHandle resp = Except.ok (resp.body.getField "patient") ∧
    (createPatientRequest d).jsonField "confidence_score" = some Json.null ∧
    (createPatientRequest d).jsonField "raw_text" = some Json.null := by
  refine ⟨?_, ?_, ?_⟩
  · simp [createPatientHandle, h]
  · rfl
  · rfl

/-- C1 witness: the theorem applied at a concrete input and 200 response. -/
theorem createPatient_envelope_nulls_witness :
    (Response.mk 200 (Json.obj [("patient", Json.str "p0")])).ok = true ∧
    (createPatientHandle (Response.mk 200 (Json.obj [("patient", Json.str "p0")])) =
        Except.ok ((Json.obj [("patient", Json.str "p0")]).getField "patient") ∧
      (createPatientRequest (PatientCreate.mk "Ann" "2000-01-01" none none)).jsonField
          "confidence_score" = some Json.null ∧
      (createPatientRequest (PatientCreate.mk "Ann" "2000-01-01" none none)).jsonField
          "raw_text" = some Json.null) :=
  ⟨rfl, createPatient_envelope_nulls
    (PatientCreate.mk "Ann" "2000-01-01" none none)
    (Response.mk 200 (Json.obj [("patient", Json.str "p0")])) rfl⟩

/-- C2 counterexample: `createPatient` does not target the configured base
address: its `fetch` URL is the bare page-relative path, not the base-joined
one, already under the default environment. -/
theorem createPatient_bypasses_base_url :
    (createPatientRequest (PatientCreate.mk "Ann" "2000-01-01" none none)).url
        = "/api/patients/" ∧
    apiBaseUrl none = "http://localhost:8000" ∧
    ("/api/patients/" : String) ≠ "http://localhost:8000" ++ "/api/patients/" :=
  ⟨rfl, rfl, by decide⟩

/-- C2 amended: the axios-instance operations (document upload, multi-upload,
supported-types, sendMessage, refreshKnowledgeBase) target the configured
base address, while the fetch-based operations (patient CRUD,
sendMessageWithPatientContext, getPatientContext, startChatSession) use
page-relative paths that bypass the configured base URL. -/
theorem operations_url_targets (env : Option String) (f : JSFile)
    (fs : List JSFile) (msg : Json) (d : PatientCreate) (u : PatientUpdate)
    (id sid q : String) (files : Option (List JSFile))
    (pids : Option (List String)) (lim : Nat) :
    (uploadDocumentRequest env f).url = apiBaseUrl env ++ "/api/documents/upload" ∧
    (uploadDocumentsRequest env fs).url
        = apiBaseUrl env ++ "/api/documents/upload-multiple" ∧
    (getSupportedTypesRequest env).url
        = apiBaseUrl env ++ "/api/documents/supported-types" ∧
    (sendMessageRequest env msg).url = apiBaseUrl env ++ "/api/chat/" ∧
    (refreshKnowledgeBaseRequest env).url
        = apiBaseUrl env ++ "/api/chat/refresh-knowledge-base" ∧
    (createPatientRequest d).url = "/api/patients/" ∧
    getPatientsRequest.url = "/api/patients/" ∧
    (getPatientRequest id).url = "/api/patients/" ++ id ∧
    (updatePatientRequest id u).url = "/api/patients/" ++ id ∧
    (deletePatientRequest id).url = "/api/patients/" ++ id ∧
    (sendMessageWithPatientContextRequest sid q files).url
        = "/api/patients/context/chat-query" ∧
    (getPatientContextRequest pids lim).url = "/api/patients/context/chat" ∧
    startChatSessionRequest.url = "/api/chat/start-session" := by
  refine ⟨rfl, rfl, rfl, rfl, rfl, rfl, rfl, rfl, rfl, rfl, rfl, rfl, rfl⟩

/-- C3: on every non-2xx response, each of the five fetch-based patient
operations rejects with exactly its fixed operation-specific message,
independent of status code and body. -/
theorem nonOk_fixed_error_messages (resp : Response) (h : resp.ok = false) :
    createPatientHandle resp = Except.error "Failed to create patient" ∧
    getPatientsHandle resp = Except.error "Failed to fetch patients" ∧
    getPatientHandle resp = Except.error "Failed to fetch patient" ∧
    updatePatientHandle resp = Except.error "Failed to update patient" ∧
    deletePatientHandle resp = Except.error "Failed to delete patient" := by
  refine ⟨?_, ?_, ?_, ?_, ?_⟩ <;>
    simp [createPatientHandle, getPatientsHandle, getPatientHandle,
      updatePatientHandle, deletePatientHandle, h]

/-- C3 witness: the theorem applied to a concrete 404 response carrying a
server-provided detail body. -/
theorem nonOk_fixed_error_messages_witness :
    (Response.mk 404 (Json.obj [("detail", Json.str "boom")])).ok = false ∧
    (createPatientHandle (Response.mk 404 (Json.obj [("detail", Json.str "boom")]))
        = Except.error "Failed to create patient" ∧
      getPatientsHandle (Response.mk 404 (Json.obj [("detail", Json.str "boom")]))
        = Except.error "Failed to fetch patients" ∧
      getPatientHandle (Response.mk 404 (Json.obj [("detail", Json.str "boom")]))
        = Except.error "Failed to fetch patient" ∧
      updatePatientHandle (Response.mk 404 (Json.obj [("detail", Json.str "boom")]))
        = Except.error "Failed to update patient" ∧
      deletePatientHandle (Response.mk 404 (Json.obj [("detail", Json.str "boom")]))
        = Except.error "Failed to delete patient") :=
  ⟨rfl, nonOk_fixed_error_messages
    (Response.mk 404 (Json.obj [("detail", Json.str "boom")])) rfl⟩

/-- C4: `getPatients` on a successful response with body `{}` returns the
empty array rather than failing, and when the `patients` key holds an array
it returns that array. -/
theorem getPatients_defaults_empty (resp : Response) (xs : List Json)
    (h1 : resp.ok = true)
    (h2 : resp.body.getField "patients" = some (Json.arr xs)) :
    getPatientsHandle (Response.mk 200 (Json.obj [])) = Except.ok (Json.arr []) ∧
    getPatientsHandle resp = Except.ok (Json.arr xs) := by
  constructor
  · rfl
  · simp [getPatientsHandle, h1, h2, jsFalsy]

/-- C4 witness: the theorem applied to a concrete response whose `patients`
field is a one-element array. -/
theorem getPatients_defaults_empty_witness :
    (Response.mk 200 (Json.obj [("patients", Json.arr [Json.num 1])])).ok = true ∧
    (Response.mk 200 (Json.obj [("patients", Json.arr [Json.num 1])])).body.getField
        "patients" = some (Json.arr [Json.num 1]) ∧
    (getPatientsHandle (Response.mk 200 (Json.obj []))
        = Except.ok (Json.arr []) ∧
      getPatientsHandle (Response.mk 200 (Json.obj [("patients", Json.arr [Json.num 1])]))
        = Except.ok (Json.arr [Json.num 1])) :=
  ⟨rfl, rfl, getPatients_defaults_empty
    (Response.mk 200 (Json.obj [("patients", Json.arr [Json.num 1])]))
    [Json.num 1] rfl rfl⟩

/-- C5 counterexample: `uploadDocument` sends a multipart body yet sets a
content-type header itself (`multipart/form-data`, in its axios request
config), instead of leaving the content-type to the transport. -/
theorem uploadDocument_sets_multipart_header :
    (uploadDocumentRequest none (JSFile.mk "a.txt" "x")).body
        = Body.form [FormEntry.file "file" (JSFile.mk "a.txt" "x")] ∧
    (uploadDocumentRequest none (JSFile.mk "a.txt" "x")).headers.lookup
        "Content-Type" = some "multipart/form-data" :=
  ⟨rfl, rfl⟩

/-- C5 amended: every JSON-body request sets a JSON content-type header; the
fetch-based multipart request (`sendMessageWithPatientContext`) sets no
headers and leaves the content-type to the transport, while the axios
multipart uploads (`uploadDocument`, `uploadDocuments`) explicitly set a
`multipart/form-data` content-type header in their request config. -/
theorem content_type_header_discipline (env : Option String) (msg : Json)
    (d : PatientCreate) (u : PatientUpdate) (id sid q : String)
    (f : JSFile) (fs : List JSFile) (files : Option (List JSFile)) :
    (sendMessageRequest env msg).headers.lookup "Content-Type"
        = some "application/json" ∧
    (createPatientRequest d).headers.lookup "Content-Type"
        = some "application/json" ∧
    (updatePatientRequest id u).headers.lookup "Content-Type"
        = some "application/json" ∧
    (sendMessageWithPatientContextRequest sid q files).headers = [] ∧
    (uploadDocumentRequest env f).headers.lookup "Content-Type"
        = some "multipart/form-data" ∧
    (uploadDocumentsRequest env fs).headers.lookup "Content-Type"
        = some "multipart/form-data" := by
  refine ⟨rfl, rfl, rfl, rfl, rfl, rfl⟩

/-- C6: `sendMessageWithPatientContext "s1" "hello"` with an empty file list
sends exactly the four form fields `session_id=s1`, `query=hello`,
`include_all_patients=true`, `max_patients=10` and zero file entries, and
the two flag fields take those fixed values on every call. -/
theorem sendMessageWithPatientContext_form_fields (sid q : String)
    (files : Option (List JSFile)) :
    (sendMessageWithPatientContextRequest "s1" "hello" (some [])).body
        = Body.form
          [FormEntry.field "session_id" "s1",
           FormEntry.field "query" "hello",
           FormEntry.field "include_all_patients" "true",
           FormEntry.field "max_patients" "10"] ∧
    (sendMessageWithPatientContextForm sid q files).take 4
        = [FormEntry.field "session_id" sid,
           FormEntry.field "query" q,
           FormEntry.field "include_all_patients" "true",
           FormEntry.field "max_patients" "10"] := by
  constructor
  · rfl
  · cases files <;> rfl

/-- C7: `getPatientContext ["p1","p2"] 5` issues a GET whose query parameters
are exactly `patient_ids=p1,p2` (comma-joined), `limit=5` and
`include_recent=true`. -/
theorem getPatientContext_query_params :
    (getPatientContextRequest (some ["p1", "p2"]) 5).method = "GET" ∧
    (getPatientContextRequest (some ["p1", "p2"]) 5).query
        = [("patient_ids", "p1,p2"), ("limit", "5"), ("include_recent", "true")] := by
  constructor
  · rfl
  · rfl

/-- C8: `uploadDocument` sends, for every input file, a multipart body with
exactly one field, named `file`, holding that file, and returns the parsed
response body as the processing result. -/
theorem uploadDocument_single_file_field (env : Option String) (f : JSFile)
    (resp : Response) :
    (uploadDocumentRequest env f).body = Body.form [FormEntry.file "file" f] ∧
    uploadDocumentHandle resp = resp.body :=
  ⟨rfl, rfl⟩

/-- C9: `createPatient` maps every falsy diagnosis/prescription input to a
literal null in the request body: the empty string becomes null (not the
empty string), just as an absent field does. -/
theorem createPatient_falsy_to_null (name dob : String) :
    (createPatientRequest (PatientCreate.mk name dob (some "") (some ""))).jsonField
        "diagnosis" = some Json.null ∧
    (createPatientRequest (PatientCreate.mk name dob (some "") (some ""))).jsonField
        "prescription" = some Json.null ∧
    (createPatientRequest (PatientCreate.mk name dob none none)).jsonField
        "diagnosis" = some Json.null ∧
    (createPatientRequest (PatientCreate.mk name dob none none)).jsonField
        "prescription" = some Json.null := by
  refine ⟨rfl, rfl, rfl, rfl⟩

/-- C10: `getPatientContext` with an empty patient id list builds the same
request as with the list omitted, for every limit: the query contains no
`patient_ids` parameter, only `limit` and `include_recent`. -/
theorem getPatientContext_empty_ids_eq_omitted (lim : Nat) :
    getPatientContextRequest (some []) lim = getPatientContextRequest none lim ∧
    (getPatientContextRequest (some []) lim).query
        = [("limit", toString lim), ("include_recent", "true")] := by
  constructor
  · rfl
  · rfl
